import Mathlib

/-!
Verification development for the exam-analysis backend in `src/backend/main.py`
(repository `studywbuddy`). The Python source is shallowly embedded: pure
helpers become Lean functions over `String` / `List Char`; the background job
`process_exam_background` becomes a function from an explicit environment
(results of the external capabilities: PDF text extraction, the generative
oracle, the temp-file state) to an explicit outcome record; fallible parsing
(`json.loads`) becomes an `Option`-returning parser.

Modelling conventions, noted once here:
* `json.loads` is embedded as `json_loads`, a fueled recursive-descent parser
  for the JSON grammar with numbers restricted to (optionally signed) integer
  literals; fractional/exponent numerals, `NaN`/`Infinity`, and `\u` escapes
  of surrogate code points are rejected.  No claim in scope depends on such
  inputs, and every concrete input used below stays inside the common
  fragment where the embedding and CPython's `json` agree.
* Python dict literals produced by the parser keep the first position of a
  duplicated key and overwrite its value (`insertField`), as CPython does.
* CPython's `json.loads` additionally raises `RecursionError` (not a
  `JSONDecodeError`) when container nesting exhausts the interpreter
  recursion limit.  The exception-aware variant `json_loads_exc` models
  this with an explicit nesting budget (the real threshold is the
  `sys` recursion limit, default 1000, minus the stack already in use; the
  model idealizes it as the budget parameter).  `parse_json_from_markdown_exc`
  then mirrors the handlers of main.py:179-199: stage 1's handler catches
  only `JSONDecodeError`, so a stage-1 `RecursionError` escapes, while the
  stage-2/3 handler catches every exception.
* Python `str.strip()` / `\s` are modelled over the ASCII whitespace set.
* The regex `findall` that locates numbered-question anchors is not itself
  a subject of any claim; `pre_extract_questions` therefore takes the list
  of `(number, body)` matches as its argument, and statements about it
  quantify over all such lists (hence over all input texts).
-/

set_option maxRecDepth 8000

namespace StudyBuddy

/-- Embedded JSON values (the results of Python `json.loads`). -/
inductive JVal where
  | null : JVal
  | bool (b : Bool) : JVal
  | num (n : Int) : JVal
  | str (s : String) : JVal
  | arr (elems : List JVal) : JVal
  | obj (fields : List (String × JVal)) : JVal

/-- The left curly bracket character. -/
def lbrace : Char := Char.ofNat 123

/-- The right curly bracket character. -/
def rbrace : Char := Char.ofNat 125

/-- JSON insignificant whitespace (as in CPython's `json` scanner). -/
def isJsonWs (c : Char) : Bool :=
  c = ' ' || c = '\t' || c = '\n' || c = '\r'

/-- Skip insignificant JSON whitespace. -/
def skipWsJ (cs : List Char) : List Char := cs.dropWhile isJsonWs

/-- Hexadecimal digit value, for `\u` escapes. -/
def hexVal (c : Char) : Option Nat :=
  if c.isDigit then some (c.toNat - 48)
  else if 'a' ≤ c ∧ c ≤ 'f' then some (c.toNat - 87)
  else if 'A' ≤ c ∧ c ≤ 'F' then some (c.toNat - 55)
  else none

/-- Body of a JSON string literal, after the opening quote.  Returns the
decoded characters and the remainder after the closing quote.  Unescaped
control characters are rejected (CPython `strict=True`). -/
def parseJStrAux (acc : List Char) : List Char → Option (List Char × List Char)
  | [] => none
  | c :: rest =>
    if c = '"' then some (acc.reverse, rest)
    else if c = '\\' then
      match rest with
      | [] => none
      | e :: rest2 =>
        if e = '"' then parseJStrAux ('"' :: acc) rest2
        else if e = '\\' then parseJStrAux ('\\' :: acc) rest2
        else if e = '/' then parseJStrAux ('/' :: acc) rest2
        else if e = 'b' then parseJStrAux (Char.ofNat 8 :: acc) rest2
        else if e = 'f' then parseJStrAux (Char.ofNat 12 :: acc) rest2
        else if e = 'n' then parseJStrAux ('\n' :: acc) rest2
        else if e = 'r' then parseJStrAux ('\r' :: acc) rest2
        else if e = 't' then parseJStrAux ('\t' :: acc) rest2
        else if e = 'u' then
          match rest2 with
          | h1 :: h2 :: h3 :: h4 :: rest3 =>
            match hexVal h1, hexVal h2, hexVal h3, hexVal h4 with
            | some a, some b, some c2, some d =>
              let n := ((a * 16 + b) * 16 + c2) * 16 + d
              if 55296 ≤ n ∧ n < 57344 then none
              else parseJStrAux (Char.ofNat n :: acc) rest3
            | _, _, _, _ => none
          | _ => none
        else none
    else if c.toNat < 32 then none
    else parseJStrAux (c :: acc) rest

/-- Consume a maximal run of decimal digits. -/
def takeDigits (cs : List Char) : List Char × List Char :=
  (cs.takeWhile Char.isDigit, cs.dropWhile Char.isDigit)

/-- Natural number denoted by a digit run. -/
def natOfDigits (ds : List Char) : Nat :=
  ds.foldl (fun acc d => acc * 10 + (d.toNat - 48)) 0

/-- Unsigned integer numeral with the JSON leading-zero rule; numerals that
continue with a fraction or exponent part are rejected (model restriction,
see the header note). -/
def parseNatNum : List Char → Option (Nat × List Char)
  | [] => none
  | c :: rest =>
    if c = '0' then
      match rest with
      | [] => some (0, [])
      | d :: _ =>
        if d.isDigit || d = '.' || d = 'e' || d = 'E' then none
        else some (0, rest)
    else if c.isDigit then
      let (ds, r) := takeDigits rest
      match r with
      | [] => some (natOfDigits (c :: ds), [])
      | d :: _ =>
        if d = '.' || d = 'e' || d = 'E' then none
        else some (natOfDigits (c :: ds), r)
    else none

/-- Signed integer numeral. -/
def parseNum (cs : List Char) : Option (JVal × List Char) :=
  match cs with
  | '-' :: rest => (parseNatNum rest).map (fun p => (JVal.num (-(p.1 : Int)), p.2))
  | _ => (parseNatNum cs).map (fun p => (JVal.num (p.1 : Int), p.2))

/-- Insert a key into an object under construction: a duplicated key keeps
its first position and takes the new value, as in a CPython dict literal. -/
def insertField (fs : List (String × JVal)) (k : String) (v : JVal) :
    List (String × JVal) :=
  match fs with
  | [] => [(k, v)]
  | (k', v') :: rest =>
    if k' = k then (k', v) :: rest else (k', v') :: insertField rest k v

mutual

/-- Parse one JSON value (fueled; the top-level entry point supplies fuel
larger than the input length, which is always sufficient since every
recursive call consumes input). -/
def parseValue : Nat → List Char → Option (JVal × List Char)
  | 0, _ => none
  | fuel + 1, cs =>
    match skipWsJ cs with
    | [] => none
    | c :: rest =>
      if c = lbrace then parseMembers fuel (skipWsJ rest) []
      else if c = '[' then parseElems fuel (skipWsJ rest) []
      else if c = '"' then
        match parseJStrAux [] rest with
        | some (s, r) => some (JVal.str (String.mk s), r)
        | none => none
      else if c = 't' then
        match rest with
        | 'r' :: 'u' :: 'e' :: r => some (JVal.bool true, r)
        | _ => none
      else if c = 'f' then
        match rest with
        | 'a' :: 'l' :: 's' :: 'e' :: r => some (JVal.bool false, r)
        | _ => none
      else if c = 'n' then
        match rest with
        | 'u' :: 'l' :: 'l' :: r => some (JVal.null, r)
        | _ => none
      else parseNum (c :: rest)

/-- Parse the members of an object, after the opening bracket (leading
whitespace already skipped). -/
def parseMembers : Nat → List Char → List (String × JVal) →
    Option (JVal × List Char)
  | 0, _, _ => none
  | fuel + 1, cs, fields =>
    match cs with
    | [] => none
    | c :: rest =>
      if c = rbrace then
        if fields.isEmpty then some (JVal.obj [], rest) else none
      else if c = '"' then
        match parseJStrAux [] rest with
        | some (kChars, r1) =>
          match skipWsJ r1 with
          | ':' :: r2 =>
            match parseValue fuel (skipWsJ r2) with
            | some (v, r3) =>
              let fields' := insertField fields (String.mk kChars) v
              match skipWsJ r3 with
              | ',' :: r4 => parseMembers fuel (skipWsJ r4) fields'
              | c2 :: r4 =>
                if c2 = rbrace then some (JVal.obj fields', r4) else none
              | [] => none
            | none => none
          | _ => none
        | none => none
      else none

/-- Parse the elements of an array, after the opening bracket (leading
whitespace already skipped). -/
def parseElems : Nat → List Char → List JVal → Option (JVal × List Char)
  | 0, _, _ => none
  | fuel + 1, cs, elems =>
    match cs with
    | [] => none
    | c :: rest =>
      if c = ']' then
        if elems.isEmpty then some (JVal.arr [], rest) else none
      else
        match parseValue fuel (c :: rest) with
        | some (v, r1) =>
          match skipWsJ r1 with
          | ',' :: r2 => parseElems fuel (skipWsJ r2) (elems ++ [v])
          | c2 :: r2 =>
            if c2 = ']' then some (JVal.arr (elems ++ [v]), r2) else none
          | [] => none
        | none => none

end

/-- Embedding of `json.loads` on a character list: one JSON value followed
only by whitespace, otherwise failure. -/
def json_loads_list (cs : List Char) : Option JVal :=
  match parseValue (cs.length + 1) cs with
  | some (v, rest) => if (skipWsJ rest).isEmpty then some v else none
  | none => none

/-- Embedding of `json.loads` on a string. -/
def json_loads (s : String) : Option JVal := json_loads_list s.toList

/-- Python `str.find(needle)` (first occurrence), as an `Option`al index. -/
def strFindL (needle : List Char) : List Char → Option Nat
  | [] => if needle.isPrefixOf [] then some 0 else none
  | c :: t =>
    if needle.isPrefixOf (c :: t) then some 0
    else (strFindL needle t).map (· + 1)

/-- Python `str.rfind(needle)` (last occurrence), as an `Option`al index. -/
def strRFindL (needle : List Char) : List Char → Option Nat
  | [] => if needle.isPrefixOf [] then some 0 else none
  | c :: t =>
    match strRFindL needle t with
    | some i => some (i + 1)
    | none => if needle.isPrefixOf (c :: t) then some 0 else none

/-- Python `needle in hay` substring test. -/
def isSubstrL (needle : List Char) : List Char → Bool
  | [] => needle.isPrefixOf []
  | c :: t => needle.isPrefixOf (c :: t) || isSubstrL needle t

/-- ASCII whitespace, the set stripped by Python `str.strip()` and matched
by the regex class `\s`. -/
def isPyWs (c : Char) : Bool :=
  c = ' ' || c = '\t' || c = '\n' || c = '\r' ||
    c = Char.ofNat 11 || c = Char.ofNat 12

/-- Python `str.strip()`. -/
def pyStripL (cs : List Char) : List Char :=
  ((cs.dropWhile isPyWs).reverse.dropWhile isPyWs).reverse

/-- The fenced-block opener token searched for at main.py:186. -/
def openerL : List Char := "```json".toList

/-- The fence token searched for at main.py:188. -/
def fenceL : List Char := "```".toList

/-- Stage 2 of `parse_json_from_markdown` (main.py:186-191): the stripped
substring between the first occurrence of the opener and the next fence,
when both are present. -/
def fencedSlice (cs : List Char) : Option (List Char) :=
  match strFindL openerL cs with
  | some start =>
    match strFindL fenceL (cs.drop (start + 7)) with
    | some endRel => some (pyStripL ((cs.drop (start + 7)).take endRel))
    | none => none
  | none => none

/-- Stage 3 of `parse_json_from_markdown` (main.py:192-196): the substring
from the first left brace to the last right brace, inclusive, when both are
present (Python `text[start:end+1]`, which is empty when the indices cross). -/
def braceSlice (cs : List Char) : Option (List Char) :=
  match strFindL [lbrace] cs, strRFindL [rbrace] cs with
  | some s, some e => some ((cs.drop s).take (e + 1 - s))
  | _, _ => none

/-- The brace-scan fallback of `parse_json_from_markdown`: parse the brace
slice if it exists; a parse exception (or no braces) yields the empty dict
via the final `return \x7b\x7d`. -/
def stage3 (cs : List Char) : JVal :=
  match braceSlice cs with
  | some sl => (json_loads_list sl).getD (JVal.obj [])
  | none => JVal.obj []

/-- Embedding of `parse_json_from_markdown` (main.py:179-199).  Stage 1
parses the whole text.  On failure, stages 2 and 3 run inside a single
`try`: when an opener and a closing fence exist, a parse exception on the
fenced substring is caught by the shared handler and yields the empty dict
without attempting stage 3; stage 3 runs only when stage 2 was not
applicable. -/
def parse_json_from_markdown (text : String) : JVal :=
  match json_loads text with
  | some v => v
  | none =>
    match fencedSlice text.toList with
    | some sl => (json_loads_list sl).getD (JVal.obj [])
    | none => stage3 text.toList

/-- Whether a recovered value is a mapping (a Python dict). -/
def isMappingB : JVal → Bool
  | JVal.obj _ => true
  | _ => false

/-! Exception-aware refinement of `json.loads` and of
`parse_json_from_markdown`, distinguishing the two exception kinds the
handler structure of main.py:179-199 treats differently. -/

/-- The exceptions of the embedded `json.loads` that matter to the
recoverer: `json.JSONDecodeError` (the only kind caught at main.py:182)
and `RecursionError` (raised by CPython's scanner when container nesting
exhausts the recursion budget; it is not a `JSONDecodeError`). -/
inductive PyExc where
  | jsonDecodeError : PyExc
  | recursionError : PyExc
deriving DecidableEq

mutual

/-- Depth-aware variant of `parseValue`: identical grammar, but entering a
container with an exhausted nesting budget raises `RecursionError`, as
CPython's scanner does; all other failures are `JSONDecodeError`.  (Fuel
exhaustion reports `JSONDecodeError`; the entry point supplies fuel larger
than every possible number of steps, so that branch is unreachable.) -/
def parseValueE : Nat → Nat → List Char → Except PyExc (JVal × List Char)
  | 0, _, _ => Except.error PyExc.jsonDecodeError
  | fuel + 1, depth, cs =>
    match skipWsJ cs with
    | [] => Except.error PyExc.jsonDecodeError
    | c :: rest =>
      if c = lbrace then
        match depth with
        | 0 => Except.error PyExc.recursionError
        | d + 1 => parseMembersE fuel d (skipWsJ rest) []
      else if c = '[' then
        match depth with
        | 0 => Except.error PyExc.recursionError
        | d + 1 => parseElemsE fuel d (skipWsJ rest) []
      else if c = '"' then
        match parseJStrAux [] rest with
        | some (s, r) => Except.ok (JVal.str (String.mk s), r)
        | none => Except.error PyExc.jsonDecodeError
      else if c = 't' then
        match rest with
        | 'r' :: 'u' :: 'e' :: r => Except.ok (JVal.bool true, r)
        | _ => Except.error PyExc.jsonDecodeError
      else if c = 'f' then
        match rest with
        | 'a' :: 'l' :: 's' :: 'e' :: r => Except.ok (JVal.bool false, r)
        | _ => Except.error PyExc.jsonDecodeError
      else if c = 'n' then
        match rest with
        | 'u' :: 'l' :: 'l' :: r => Except.ok (JVal.null, r)
        | _ => Except.error PyExc.jsonDecodeError
      else
        match parseNum (c :: rest) with
        | some p => Except.ok p
        | none => Except.error PyExc.jsonDecodeError

/-- Depth-aware variant of `parseMembers`; sibling members share the
budget of their container, only nested containers consume another unit
(inside `parseValueE`). -/
def parseMembersE : Nat → Nat → List Char → List (String × JVal) →
    Except PyExc (JVal × List Char)
  | 0, _, _, _ => Except.error PyExc.jsonDecodeError
  | fuel + 1, depth, cs, fields =>
    match cs with
    | [] => Except.error PyExc.jsonDecodeError
    | c :: rest =>
      if c = rbrace then
        if fields.isEmpty then Except.ok (JVal.obj [], rest)
        else Except.error PyExc.jsonDecodeError
      else if c = '"' then
        match parseJStrAux [] rest with
        | some (kChars, r1) =>
          match skipWsJ r1 with
          | ':' :: r2 =>
            match parseValueE fuel depth (skipWsJ r2) with
            | Except.ok (v, r3) =>
              let fields' := insertField fields (String.mk kChars) v
              match skipWsJ r3 with
              | ',' :: r4 => parseMembersE fuel depth (skipWsJ r4) fields'
              | c2 :: r4 =>
                if c2 = rbrace then Except.ok (JVal.obj fields', r4)
                else Except.error PyExc.jsonDecodeError
              | [] => Except.error PyExc.jsonDecodeError
            | Except.error e => Except.error e
          | _ => Except.error PyExc.jsonDecodeError
        | none => Except.error PyExc.jsonDecodeError
      else Except.error PyExc.jsonDecodeError

/-- Depth-aware variant of `parseElems`. -/
def parseElemsE : Nat → Nat → List Char → List JVal →
    Except PyExc (JVal × List Char)
  | 0, _, _, _ => Except.error PyExc.jsonDecodeError
  | fuel + 1, depth, cs, elems =>
    match cs with
    | [] => Except.error PyExc.jsonDecodeError
    | c :: rest =>
      if c = ']' then
        if elems.isEmpty then Except.ok (JVal.arr [], rest)
        else Except.error PyExc.jsonDecodeError
      else
        match parseValueE fuel depth (c :: rest) with
        | Except.ok (v, r1) =>
          match skipWsJ r1 with
          | ',' :: r2 => parseElemsE fuel depth (skipWsJ r2) (elems ++ [v])
          | c2 :: r2 =>
            if c2 = ']' then Except.ok (JVal.arr (elems ++ [v]), r2)
            else Except.error PyExc.jsonDecodeError
          | [] => Except.error PyExc.jsonDecodeError
        | Except.error e => Except.error e

end

/-- Exception-aware `json.loads` on a character list, with `limit` the
nesting budget (CPython default recursion limit: 1000). -/
def json_loads_exc_list (limit : Nat) (cs : List Char) : Except PyExc JVal :=
  match parseValueE (2 * cs.length + 2) limit cs with
  | Except.ok (v, rest) =>
    if (skipWsJ rest).isEmpty then Except.ok v
    else Except.error PyExc.jsonDecodeError
  | Except.error e => Except.error e

/-- Exception-aware `json.loads` on a string. -/
def json_loads_exc (limit : Nat) (s : String) : Except PyExc JVal :=
  json_loads_exc_list limit s.toList

/-- Exception-aware embedding of `parse_json_from_markdown`
(main.py:179-199).  Stage 1's handler catches only `JSONDecodeError`, so a
stage-1 `RecursionError` escapes the function; the single handler around
stages 2 and 3 catches every exception and falls to `return \x7b\x7d`. -/
def parse_json_from_markdown_exc (limit : Nat) (text : String) :
    Except PyExc JVal :=
  match json_loads_exc limit text with
  | Except.ok v => Except.ok v
  | Except.error PyExc.recursionError => Except.error PyExc.recursionError
  | Except.error PyExc.jsonDecodeError =>
    Except.ok
      (match fencedSlice text.toList with
       | some sl =>
         match json_loads_exc_list limit sl with
         | Except.ok v => v
         | Except.error _ => JVal.obj []
       | none =>
         match braceSlice text.toList with
         | some sl =>
           match json_loads_exc_list limit sl with
           | Except.ok v => v
           | Except.error _ => JVal.obj []
         | none => JVal.obj [])

/-! Segmenter: `pre_extract_questions` (main.py:97-176).  The four
classification regexes of main.py:112-133 are embedded as executable
searches below; Python `re.search` semantics (a match anywhere in the
text) is realised by scanning every start position. -/

/-- Regex word character `\w` (ASCII). -/
def isWordChar (c : Char) : Bool := c.isAlpha || c.isDigit || c = '_'

/-- Tail of `\s*.+` (after `\s*` greedily eats newlines, `.` must still
find one non-newline character). -/
def wsDotPlus : List Char → Bool
  | [] => false
  | c :: rest => if c = '\n' then wsDotPlus rest else true

/-- Letter class `[a-dA-D]` of the option pattern. -/
def isOptLetter (c : Char) : Bool :=
  c = 'a' || c = 'b' || c = 'c' || c = 'd' ||
    c = 'A' || c = 'B' || c = 'C' || c = 'D'

/-- Search for `mcq_options_pattern` (main.py:112-115):
`[\(\[]?[a-dA-D][\).]\s*.+`.  The optional opening bracket does not affect
matchability, so the scan looks for letter, delimiter, then `\s*.+`. -/
def mcqSearch : List Char → Bool
  | [] => false
  | c1 :: rest =>
    (match rest with
     | c2 :: rest2 => isOptLetter c1 && (c2 = ')' || c2 = '.') && wsDotPlus rest2
     | [] => false) || mcqSearch rest

/-- Case-insensitive literal match at the head of the input; returns the
remainder on success.  The pattern is given lowercased. -/
def matchCI : List Char → List Char → Option (List Char)
  | [], s => some s
  | _, [] => none
  | w :: ws, c :: cs => if c.toLower = w then matchCI ws cs else none

/-- Word boundary `\b` after a match that ends in a word character. -/
def endBoundary : List Char → Bool
  | [] => true
  | c :: _ => !(isWordChar c)

/-- A single keyword (lowercased) matches here, with a trailing `\b`. -/
def keywordAt (w : List Char) (s : List Char) : Bool :=
  match matchCI w s with
  | some r => endBoundary r
  | none => false

/-- Scan for any keyword of the list at a position with a leading `\b`
(every keyword begins with a word character, so the boundary holds exactly
when the previous character is not a word character). -/
def kwSearchAux (kws : List (List Char)) (prevWord : Bool) : List Char → Bool
  | [] => false
  | c :: rest =>
    ((!prevWord) && kws.any (fun w => keywordAt w (c :: rest))) ||
      kwSearchAux kws (isWordChar c) rest

/-- Keywords of `essay_keywords_pattern` (main.py:124-127). -/
def essayKeywords : List (List Char) :=
  ["discuss".toList, "explain".toList, "describe".toList, "analyze".toList,
   "evaluate".toList, "compare".toList, "contrast".toList, "justify".toList,
   "elaborate".toList]

/-- Keywords of `short_answer_keywords_pattern` (main.py:130-133). -/
def shortAnswerKeywords : List (List Char) :=
  ["define".toList, "list".toList, "name".toList, "state".toList,
   "identify".toList, "what is".toList, "give an example".toList]

/-- Search for `essay_keywords_pattern`. -/
def essaySearch (cs : List Char) : Bool := kwSearchAux essayKeywords false cs

/-- Search for `short_answer_keywords_pattern`. -/
def shortAnswerSearch (cs : List Char) : Bool :=
  kwSearchAux shortAnswerKeywords false cs

/-- First alternative of `tf_pattern` (main.py:118-121):
`True\s*(?:\/|or)?\s*False` followed by `\b`, case-insensitive.  The
whitespace runs are consumed greedily, which is faithful here because no
follow-up token begins with a whitespace character. -/
def tfAlt1 (s : List Char) : Bool :=
  match matchCI ("true".toList) s with
  | none => false
  | some r1 =>
    let r2 := r1.dropWhile isPyWs
    let tryFalse : List Char → Bool := fun r =>
      match matchCI ("false".toList) (r.dropWhile isPyWs) with
      | some r4 => endBoundary r4
      | none => false
    (match r2 with
     | '/' :: r3 => tryFalse r3
     | _ => false) ||
    (match matchCI ("or".toList) r2 with
     | some r3 => tryFalse r3
     | none => false) ||
    tryFalse r2

/-- Second alternative of `tf_pattern`: `T\s*\/\s*F` followed by `\b`. -/
def tfAlt2 : List Char → Bool
  | [] => false
  | c :: r1 =>
    if c.toLower = 't' then
      match r1.dropWhile isPyWs with
      | '/' :: r2 =>
        (match r2.dropWhile isPyWs with
         | c2 :: r3 => c2.toLower = 'f' && endBoundary r3
         | [] => false)
      | _ => false
    else false

/-- One position of the `tf_pattern` search (both alternatives start with a
word character, so the leading `\b` is checked by the caller). -/
def tfAt (s : List Char) : Bool := tfAlt1 s || tfAlt2 s

/-- Scan for `tf_pattern`. -/
def tfSearchAux (prevWord : Bool) : List Char → Bool
  | [] => false
  | c :: rest =>
    ((!prevWord) && tfAt (c :: rest)) || tfSearchAux (isWordChar c) rest

/-- Search for `tf_pattern`. -/
def tfSearch (cs : List Char) : Bool := tfSearchAux false cs

/-- Classification of a candidate question's (already normalized) text:
the `q_type` if/elif chain of main.py:148-159. -/
def classifyQuestionType (t : String) : String :=
  let cs := t.toList
  if mcqSearch cs then "Multiple Choice"
  else if tfSearch cs then "True/False"
  else if essaySearch cs then "Essay"
  else if shortAnswerSearch cs then "Short Answer"
  else "Short Answer"

/-- A candidate question dict (main.py:161-166). -/
structure Candidate where
  questionNumber : String
  questionText : String
  qtype : String
  source : String
deriving DecidableEq

/-- Collapse of every whitespace run to a single space:
`re.sub(r'\s+', ' ', q_text)` (main.py:143).  The flag records whether the
previous character was whitespace. -/
def normWsAux (prevWs : Bool) : List Char → List Char
  | [] => []
  | c :: rest =>
    if isPyWs c then
      if prevWs then normWsAux true rest
      else ' ' :: normWsAux true rest
    else c :: normWsAux false rest

/-- Whitespace normalization of a question body. -/
def normalizeWs (cs : List Char) : List Char := normWsAux false cs

/-- Embedding of the extraction loop of `pre_extract_questions`
(main.py:136-166) over the list of `(number, body)` pairs produced by
`numbered_pattern.findall`: strip and normalize each body, drop fragments
shorter than 10 characters, classify the rest. -/
def pre_extract_questions (ms : List (String × String)) : List Candidate :=
  ms.filterMap (fun m =>
    let q_num := String.mk (pyStripL m.1.toList)
    let q_text := String.mk (normalizeWs (pyStripL m.2.toList))
    if q_text.length < 10 then none
    else some ⟨q_num, q_text, classifyQuestionType q_text, "regex"⟩)

/-! Orchestrator: `process_exam_background` (main.py:396-465).  The
external collaborators are an explicit environment: the text returned by
`extract_text_from_pdf` (which swallows its own failures and returns `""`),
the `(number, body)` matches feeding `pre_extract_questions`, the oracle
call (which either raises, carrying an exception message, or returns reply
text), and the pre-existing state used by the upsert and the cleanup.  The
persistent store itself is modelled as infallible; the outcome record
collects exactly the writes the job performs. -/

/-- Lookup in an embedded dict (position of the first matching key). -/
def jloc : List (String × JVal) → String → Option JVal
  | [], _ => none
  | (k, v) :: rest, key => if k = key then some v else jloc rest key

/-- Python `needle in hay` on strings. -/
def pyContains (hay needle : String) : Bool := isSubstrL needle.toList hay.toList

/-- The error-message rewriting of main.py:454-457. -/
def classify_error (msg : String) : String :=
  if pyContains msg "429" then
    "KI-Nutzungslimit überschritten (Quote). Bitte versuchen Sie es später erneut."
  else if pyContains msg "500" && pyContains msg "Google" then
    "KI-Dienstfehler. Bitte versuchen Sie es erneut."
  else msg

/-- Python `error_msg[:1000]` (main.py:461). -/
def truncate1000 (s : String) : String := String.mk (s.toList.take 1000)

/-- Environment of one background job: results of its external
collaborators and pre-existing state. -/
structure JobEnv where
  extractResult : String
  segMatches : List (String × String)
  oracleResult : Except String String
  fileExists0 : Bool
  priorPlanExists : Bool

/-- The row written to the `study_plans` table (main.py:433-437). -/
structure SavedPlan where
  markdown_plan : JVal
  raw_json : JVal

/-- Observable outcome of one background job. -/
structure JobOutcome where
  finalStatus : String
  errorMessage : Option String
  savedPlan : Option SavedPlan
  savedByUpdate : Bool
  finalFileExists : Bool

/-- The unconditional `finally` cleanup (main.py:463-465): remove the
temporary file when it exists. -/
def finallyCleanup (fileExists0 : Bool) : Bool :=
  if fileExists0 then false else fileExists0

/-- Embedding of `process_exam_background`.  The `try` body is an
`Except String` computation; any raised exception reaches the handler of
main.py:449-462, which classifies the message, truncates it to 1000
characters and marks the job `failed`.  Prompt construction (main.py:410-423)
only feeds the oracle, whose reply is already part of the environment, so
its string is not materialised here; the segmentation step it consumes is
kept to show that it cannot abort the job. -/
def process_exam_background (env : JobEnv) : JobOutcome :=
  let tryResult : Except String SavedPlan :=
    if env.extractResult = "" then
      Except.error "Could not extract text from PDF"
    else
      let _candidates := pre_extract_questions env.segMatches
      match env.oracleResult with
      | Except.error e => Except.error e
      | Except.ok responseText =>
        let ai_output := parse_json_from_markdown responseText
        match ai_output with
        | JVal.obj fs =>
          Except.ok ⟨(jloc fs "summary").getD (JVal.str "Processed successfully"),
                     JVal.obj fs⟩
        | _ => Except.error "AttributeError: object has no attribute get"
  match tryResult with
  | Except.ok plan =>
    { finalStatus := "completed", errorMessage := none, savedPlan := some plan,
      savedByUpdate := env.priorPlanExists,
      finalFileExists := finallyCleanup env.fileExists0 }
  | Except.error msg =>
    { finalStatus := "failed",
      errorMessage := some (truncate1000 (classify_error msg)),
      savedPlan := none, savedByUpdate := false,
      finalFileExists := finallyCleanup env.fileExists0 }

/-! Aggregator: `generate_study_guide` (main.py:605-698), up to and
including the two not-found conditions; the subsequent oracle call and the
upsert only consume the selection built here.  The `study_plans` rows the
endpoint reads are embedded with the dict shapes the loop accesses:
`raw_json.get("subject")`, `raw_json.get("questions", [])`, and per
question the four `q.get(key, default)` string fields, with an absent key
modelled by `none`. -/

/-- One question dict inside a persisted analysis. -/
structure QuestionRow where
  topic : Option String
  questionText : Option String
  solution : Option String
  explanation : Option String
deriving DecidableEq

/-- One row of the `study_plans` table as read by the endpoint. -/
structure AnalysisRow where
  exam_id : String
  subject : Option String
  questions : List QuestionRow
deriving DecidableEq

/-- One entry of `related_questions` (main.py:635-639). -/
structure RelatedQuestion where
  questionText : String
  solution : String
  explanation : String
deriving DecidableEq

/-- The dict appended for a matching question. -/
def projQ (q : QuestionRow) : RelatedQuestion :=
  ⟨q.questionText.getD "", q.solution.getD "", q.explanation.getD ""⟩

/-- Python `str.lower()` (ASCII). -/
def toLowerL (cs : List Char) : List Char := cs.map Char.toLower

/-- The bidirectional containment test of main.py:633-634, against the
already-lowercased requested topic. -/
def topicMatch (tlL : List Char) (q : QuestionRow) : Bool :=
  let q_topic := toLowerL (q.topic.getD "").toList
  isSubstrL tlL q_topic || isSubstrL q_topic tlL

/-- Accumulator of the aggregation loop: `related_questions`,
`source_exam_ids` and `subject`. -/
structure GuideAcc where
  related : List RelatedQuestion
  sources : List String
  subject : Option String

/-- Inner loop over the questions of one row (main.py:632-641). -/
def scanQs (tlL : List Char) (eid : String) (acc : GuideAcc) :
    List QuestionRow → GuideAcc
  | [] => acc
  | q :: rest =>
    if topicMatch tlL q then
      scanQs tlL eid
        { acc with
          related := acc.related ++ [projQ q],
          sources :=
            if acc.sources.contains eid then acc.sources
            else acc.sources ++ [eid] } rest
    else scanQs tlL eid acc rest

/-- Outer loop over the fetched rows (main.py:626-641), including the
`if not subject` refresh, whose Python truthiness treats both `None` and
the empty string as unset. -/
def guideScan (tlL : List Char) (acc : GuideAcc) : List AnalysisRow → GuideAcc
  | [] => acc
  | row :: rest =>
    let acc1 :=
      { acc with
        subject := if acc.subject.getD "" = "" then row.subject else acc.subject }
    guideScan tlL (scanQs tlL row.exam_id acc1 row.questions) rest

/-- The selection of `related_questions` for a requested topic. -/
def relatedOf (topic : String) (rows : List AnalysisRow) : List RelatedQuestion :=
  (guideScan (toLowerL topic.toList) ⟨[], [], none⟩ rows).related

/-- Embedding of `generate_study_guide` up to its two 404 conditions
(main.py:617-644): error on zero fetched rows, error on an empty match,
otherwise the selection that feeds the synthesis prompt. -/
def generate_study_guide (topic : String) (rows : List AnalysisRow) :
    Except (Nat × String) (List RelatedQuestion × List String) :=
  if rows.isEmpty then Except.error (404, "No exam data found")
  else
    let acc := guideScan (toLowerL topic.toList) ⟨[], [], none⟩ rows
    if acc.related.isEmpty then
      Except.error (404, "No questions found for topic: " ++ topic)
    else Except.ok (acc.related, acc.sources)

/-! Helper lemmas. -/

/-- The `finally` cleanup always leaves the temporary file absent. -/
theorem finallyCleanup_eq_false (b : Bool) : finallyCleanup b = false := by
  cases b <;> rfl

/-- The empty string is a substring of every string (Python `"" in s`). -/
theorem isSubstrL_nil (h : List Char) : isSubstrL [] h = true := by
  cases h <;> simp [isSubstrL, List.isPrefixOf]

/-- Whitespace skipping is the identity on a run of open brackets. -/
theorem skipWsJ_replicate_bracket (n : Nat) :
    skipWsJ (List.replicate n '[') = List.replicate n '[' := by
  cases n with
  | zero => rfl
  | succ m =>
    rw [List.replicate_succ]
    show List.dropWhile isJsonWs ('[' :: List.replicate m '[') = _
    rw [List.dropWhile_cons, if_neg (by decide)]

/-- On a run of open brackets longer than the nesting budget, the scanner
exhausts the budget and raises `RecursionError` (given fuel enough for the
descent, as the entry point always supplies). -/
theorem parseValueE_deep (d : Nat) :
    ∀ k fuel : Nat, d + 1 ≤ k → 2 * d + 1 ≤ fuel →
      parseValueE fuel d (List.replicate k '[') =
        Except.error PyExc.recursionError := by
  induction d with
  | zero =>
    intro k fuel hk hf
    obtain ⟨k', rfl⟩ : ∃ k', k = k' + 1 := ⟨k - 1, by omega⟩
    obtain ⟨f', rfl⟩ : ∃ f', fuel = f' + 1 := ⟨fuel - 1, by omega⟩
    have h1 : skipWsJ (List.replicate (k' + 1) '[') =
        '[' :: List.replicate k' '[' := by
      rw [skipWsJ_replicate_bracket, List.replicate_succ]
    simp only [parseValueE, h1]
    rw [if_neg (show ¬('[' = lbrace) by decide), if_pos trivial]
  | succ d ih =>
    intro k fuel hk hf
    obtain ⟨k', rfl⟩ : ∃ k', k = k' + 1 := ⟨k - 1, by omega⟩
    obtain ⟨f', rfl⟩ : ∃ f', fuel = f' + 2 := ⟨fuel - 2, by omega⟩
    have h1 : skipWsJ (List.replicate (k' + 1) '[') =
        '[' :: List.replicate k' '[' := by
      rw [skipWsJ_replicate_bracket, List.replicate_succ]
    simp only [parseValueE, h1]
    rw [if_neg (show ¬('[' = lbrace) by decide), if_pos trivial]
    show parseElemsE (f' + 1) d (skipWsJ (List.replicate k' '[')) [] =
      Except.error PyExc.recursionError
    rw [skipWsJ_replicate_bracket]
    obtain ⟨k'', rfl⟩ : ∃ k'', k' = k'' + 1 := ⟨k' - 1, by omega⟩
    rw [List.replicate_succ]
    simp only [parseElemsE]
    rw [show ('[' :: List.replicate k'' '[') = List.replicate (k'' + 1) '[' from
      (List.replicate_succ '[' k'').symm]
    rw [ih (k'' + 1) f' (by omega) (by omega)]
    rw [if_neg (show ¬('[' = ']') by decide)]

/-- The questions loop appends exactly the projections of the matching
question dicts, in order. -/
theorem scanQs_related (tlL : List Char) (eid : String) (acc : GuideAcc)
    (qs : List QuestionRow) :
    (scanQs tlL eid acc qs).related =
      acc.related ++ (qs.filter (topicMatch tlL)).map projQ := by
  induction qs generalizing acc with
  | nil => simp [scanQs]
  | cons q rest ih =>
    cases h : topicMatch tlL q <;>
      simp [scanQs, h, ih, List.append_assoc]

/-- The row loop accumulates the projections of the matching question
dicts of the flattened rows, in order. -/
theorem guideScan_related (tlL : List Char) (acc : GuideAcc)
    (rows : List AnalysisRow) :
    (guideScan tlL acc rows).related =
      acc.related ++
        ((rows.flatMap (fun r => r.questions)).filter (topicMatch tlL)).map
          projQ := by
  induction rows generalizing acc with
  | nil => simp [guideScan]
  | cons row rest ih =>
    simp [guideScan, ih, scanQs_related, List.flatMap_cons, List.filter_append,
      List.map_append, List.append_assoc]

/-- `related_questions` is the filter of the flattened question dicts under
the bidirectional containment test, projected to the three kept fields. -/
theorem relatedOf_eq (topic : String) (rows : List AnalysisRow) :
    relatedOf topic rows =
      ((rows.flatMap (fun r => r.questions)).filter
        (topicMatch (toLowerL topic.toList))).map projQ := by
  simp [relatedOf, guideScan_related]

/-- A list starts with itself. -/
theorem isPrefixOf_append_self (l x : List Char) : l.isPrefixOf (l ++ x) = true := by
  induction l with
  | nil => exact List.isPrefixOf_nil_left
  | cons c t ih => simp [List.isPrefixOf, ih]

/-- `str.find` past a block that cannot contain the needle's first
character: the first occurrence sits exactly at the junction when the
needle heads the right block. -/
theorem strFindL_append (needle a b : List Char) (hd : Char) (tl : List Char)
    (hne : needle = hd :: tl) (ha : hd ∉ a) (hb : needle.isPrefixOf b = true) :
    strFindL needle (a ++ b) = some a.length := by
  induction a with
  | nil =>
    cases b with
    | nil => subst hne; simp [List.isPrefixOf] at hb
    | cons c t => simp [strFindL, hb]
  | cons x a' ih =>
    have hx : x ≠ hd := fun h => ha (h ▸ List.mem_cons_self x a')
    have hnp : needle.isPrefixOf (x :: (a' ++ b)) = false := by
      subst hne
      simp [List.isPrefixOf]
      intro h
      exact absurd h.symm hx
    simp [strFindL, hnp, ih (fun hm => ha (List.mem_cons_of_mem _ hm))]

/-! Claims about the segmenter. -/

/-- C2: the provisional type of a segmented span is decided by the first
matching rule in the fixed order lettered-option / true-false / essay verb /
short-answer verb, with `Short Answer` as the default, never `Unknown`; in
particular a span matched by both the essay-verb pattern and the
lettered-option pattern is classified `Multiple Choice`. -/
theorem claim_C2 (t : String) :
    classifyQuestionType t ≠ "Unknown" ∧
    (mcqSearch t.toList = true → classifyQuestionType t = "Multiple Choice") ∧
    (mcqSearch t.toList = false → tfSearch t.toList = true →
      classifyQuestionType t = "True/False") ∧
    (mcqSearch t.toList = false → tfSearch t.toList = false →
      essaySearch t.toList = true → classifyQuestionType t = "Essay") ∧
    (mcqSearch t.toList = false → tfSearch t.toList = false →
      essaySearch t.toList = false → classifyQuestionType t = "Short Answer") ∧
    (essaySearch t.toList = true → mcqSearch t.toList = true →
      classifyQuestionType t = "Multiple Choice") := by
  simp only [classifyQuestionType]
  cases hm : mcqSearch t.toList <;> cases htf : tfSearch t.toList <;>
    cases he : essaySearch t.toList <;> cases hs : shortAnswerSearch t.toList <;>
    simp [hm, htf, he, hs]

/-- Witness for C2 at the concrete span of the claim: a span with both an
essay verb and a lettered option is classified `Multiple Choice`. -/
theorem claim_C2_witness :
    essaySearch ("Explain why. a) heat b) light").toList = true ∧
    mcqSearch ("Explain why. a) heat b) light").toList = true ∧
    classifyQuestionType "Explain why. a) heat b) light" = "Multiple Choice" :=
  ⟨by decide, by decide,
    (claim_C2 "Explain why. a) heat b) light").2.2.2.2.2 (by decide) (by decide)⟩

/-- C8: every candidate built by the extraction loop has question text of
length at least 10 after whitespace normalization, and in particular its
text is never empty. -/
theorem claim_C8 (ms : List (String × String)) (c : Candidate)
    (hc : c ∈ pre_extract_questions ms) :
    10 ≤ c.questionText.length ∧ c.questionText ≠ "" := by
  simp [pre_extract_questions, List.mem_filterMap] at hc
  obtain ⟨a, b, -, h10, hrec⟩ := hc
  subst hrec
  refine ⟨h10, ?_⟩
  intro hempty
  have hnil : normalizeWs (pyStripL b.data) = [] := by
    simpa using congrArg String.data hempty
  rw [hnil] at h10
  exact absurd h10 (by decide)

/-- Witness for C8 at a concrete match list. -/
theorem claim_C8_witness :
    (⟨"1", "Explain the photoelectric effect", "Essay", "regex"⟩ : Candidate) ∈
      pre_extract_questions [("1", "Explain the photoelectric effect")] ∧
    10 ≤ ("Explain the photoelectric effect" : String).length ∧
    ("Explain the photoelectric effect" : String) ≠ "" :=
  ⟨by decide,
    claim_C8 [("1", "Explain the photoelectric effect")]
      ⟨"1", "Explain the photoelectric effect", "Essay", "regex"⟩ (by decide)⟩

/-! Claims about the orchestrator. -/

/-- C1: every job removes the temporary file (success and failure paths
alike), and a job whose conversion step yields empty text ends `failed`
with a non-empty error message of at most 1000 characters. -/
theorem claim_C1 (env : JobEnv) :
    (process_exam_background env).finalFileExists = false ∧
    (env.extractResult = "" →
      (process_exam_background env).finalStatus = "failed" ∧
      ∃ m, (process_exam_background env).errorMessage = some m ∧
        m ≠ "" ∧ m.length ≤ 1000) := by
  constructor
  · simp only [process_exam_background]
    split <;> simp [finallyCleanup_eq_false]
  · intro h
    refine ⟨by simp [process_exam_background, h], ?_⟩
    refine ⟨"Could not extract text from PDF", ?_, by decide, by decide⟩
    simp only [process_exam_background, h, if_pos]
    decide

/-- Witness for C1 at a concrete environment with empty extracted text. -/
theorem claim_C1_witness :
    (process_exam_background
      ⟨"", [], Except.ok "x", true, false⟩).finalFileExists = false ∧
    (process_exam_background ⟨"", [], Except.ok "x", true, false⟩).finalStatus =
      "failed" ∧
    ∃ m, (process_exam_background
        ⟨"", [], Except.ok "x", true, false⟩).errorMessage = some m ∧
      m ≠ "" ∧ m.length ≤ 1000 :=
  ⟨(claim_C1 ⟨"", [], Except.ok "x", true, false⟩).1,
    (claim_C1 ⟨"", [], Except.ok "x", true, false⟩).2 rfl⟩

/-- C4: a job whose extraction and oracle call succeed but whose recovery
step yields the empty mapping is not failed: it persists an analysis row
with the empty payload (and the default summary text) and completes. -/
theorem claim_C4 (env : JobEnv) (r : String)
    (hex : ¬ env.extractResult = "")
    (hor : env.oracleResult = Except.ok r)
    (hrec : parse_json_from_markdown r = JVal.obj []) :
    (process_exam_background env).finalStatus = "completed" ∧
    (process_exam_background env).savedPlan =
      some ⟨JVal.str "Processed successfully", JVal.obj []⟩ ∧
    (process_exam_background env).errorMessage = none := by
  simp [process_exam_background, hor, hrec, if_neg hex, jloc]

/-- Witness for C4 at a concrete environment whose oracle reply is
unrecoverable garbage. -/
theorem claim_C4_witness :
    parse_json_from_markdown "garbage text" = JVal.obj [] ∧
    (process_exam_background
      ⟨"Exam text", [], Except.ok "garbage text", true, false⟩).finalStatus =
      "completed" ∧
    (process_exam_background
      ⟨"Exam text", [], Except.ok "garbage text", true, false⟩).savedPlan =
      some ⟨JVal.str "Processed successfully", JVal.obj []⟩ ∧
    (process_exam_background
      ⟨"Exam text", [], Except.ok "garbage text", true, false⟩).errorMessage =
      none :=
  ⟨rfl, claim_C4 ⟨"Exam text", [], Except.ok "garbage text", true, false⟩
    "garbage text" (by decide) rfl rfl⟩

/-! Claims about the structured-response recoverer. -/

/-- C3 (amended): the only exception that can escape
`parse_json_from_markdown` is a `RecursionError` raised by stage 1's
`json.loads` on input nested beyond the recursion budget — the stage-1
handler catches only `JSONDecodeError`, while the stage-2/3 handler
catches everything; on every input whose stage-1 parse stays within the
budget the function terminates normally with a value, and when no stage
parses it returns the empty mapping.  The counterexample below refutes
the original unconditional never-raises claim. -/
theorem claim_C3 (limit : Nat) (text : String) :
    (json_loads_exc limit text ≠ Except.error PyExc.recursionError →
      ∃ v, parse_json_from_markdown_exc limit text = Except.ok v) ∧
    (json_loads_exc limit text = Except.error PyExc.jsonDecodeError →
      Option.all (fun sl => !(json_loads_exc_list limit sl).isOk)
        (fencedSlice text.toList) = true →
      Option.all (fun sl => !(json_loads_exc_list limit sl).isOk)
        (braceSlice text.toList) = true →
      parse_json_from_markdown_exc limit text = Except.ok (JVal.obj [])) := by
  constructor
  · intro hne
    unfold parse_json_from_markdown_exc
    cases h : json_loads_exc limit text with
    | ok v => exact ⟨v, rfl⟩
    | error e =>
      cases e with
      | jsonDecodeError => exact ⟨_, rfl⟩
      | recursionError => exact absurd h hne
  · intro h1 h2 h3
    unfold parse_json_from_markdown_exc
    rw [h1]
    cases hf : fencedSlice text.toList with
    | some sl =>
      rw [hf] at h2
      simp only [Option.all] at h2
      cases hsl : json_loads_exc_list limit sl with
      | ok v => rw [hsl] at h2; simp [Except.isOk, Except.toBool] at h2
      | error e => simp [hf, hsl]
    | none =>
      cases hb : braceSlice text.toList with
      | some sl =>
        rw [hb] at h3
        simp only [Option.all] at h3
        cases hsl : json_loads_exc_list limit sl with
        | ok v => rw [hsl] at h3; simp [Except.isOk, Except.toBool] at h3
        | error e => simp [hf, hb, hsl]
      | none => simp [hf, hb]

/-- Witness for C3's amended statement at concrete garbage input and the
default recursion budget. -/
theorem claim_C3_witness :
    json_loads_exc 1000 "total garbage" = Except.error PyExc.jsonDecodeError ∧
    parse_json_from_markdown_exc 1000 "total garbage" =
      Except.ok (JVal.obj []) :=
  ⟨rfl, (claim_C3 1000 "total garbage").2 rfl (by decide) (by decide)⟩

/-- Counterexample to C3 as stated: 1001 nested open brackets at recursion
budget 1000 make stage 1's `json.loads` raise `RecursionError`, which is
not a `JSONDecodeError` and therefore escapes `parse_json_from_markdown`
instead of falling through to an empty mapping — the function does raise
on this input. -/
theorem claim_C3_counterexample :
    parse_json_from_markdown_exc 1000 (String.mk (List.replicate 1001 '[')) =
      Except.error PyExc.recursionError := by
  have h : parseValueE (2 * (List.replicate 1001 '[' : List Char).length + 2)
      1000 (List.replicate 1001 '[') = Except.error PyExc.recursionError := by
    apply parseValueE_deep 1000 1001
    · omega
    · rw [List.length_replicate]; omega
  unfold parse_json_from_markdown_exc json_loads_exc json_loads_exc_list
  rw [show (String.mk (List.replicate 1001 '[')).toList =
      List.replicate 1001 '[' from rfl]
  rw [h]

/-- C6 (amended): a stage-1 failure falls through to the fenced-block
stage, but a parse exception on the fenced substring is caught by the
shared handler and yields the empty mapping immediately, without the brace
stage being attempted; the brace stage runs exactly when no fenced opener
or no closing fence is present. -/
theorem claim_C6 (text : String) :
    (∀ sl, json_loads text = none → fencedSlice text.toList = some sl →
      json_loads_list sl = none → parse_json_from_markdown text = JVal.obj []) ∧
    (json_loads text = none → fencedSlice text.toList = none →
      parse_json_from_markdown text = stage3 text.toList) := by
  constructor
  · intro sl h1 h2 h3
    unfold parse_json_from_markdown
    rw [h1, h2]
    simp [h3]
  · intro h1 h2
    unfold parse_json_from_markdown
    rw [h1, h2]

/-- Witness for C6's amended statement at a concrete input whose fenced
substring fails to parse. -/
theorem claim_C6_witness :
    fencedSlice ("```json oops``` \x7b\"a\": 1\x7d").toList = some "oops".toList ∧
    json_loads_list "oops".toList = none ∧
    parse_json_from_markdown "```json oops``` \x7b\"a\": 1\x7d" = JVal.obj [] :=
  ⟨rfl, rfl,
    (claim_C6 "```json oops``` \x7b\"a\": 1\x7d").1 "oops".toList rfl rfl rfl⟩

/-- Counterexample to C6 as stated: on this input the fenced substring
fails to parse, the third (brace-scan) stage would succeed with a
non-empty mapping, yet the function returns the empty mapping rather than
the third stage's result — so the third stage is not attempted. -/
theorem claim_C6_counterexample :
    (∃ sl, fencedSlice ("```json oops``` \x7b\"a\": 1\x7d").toList = some sl ∧
      json_loads_list sl = none) ∧
    stage3 ("```json oops``` \x7b\"a\": 1\x7d").toList =
      JVal.obj [("a", JVal.num 1)] ∧
    parse_json_from_markdown "```json oops``` \x7b\"a\": 1\x7d" ≠
      stage3 ("```json oops``` \x7b\"a\": 1\x7d").toList := by
  refine ⟨⟨"oops".toList, rfl, rfl⟩, rfl, ?_⟩
  rw [show parse_json_from_markdown "```json oops``` \x7b\"a\": 1\x7d" =
      JVal.obj [] from rfl,
    show stage3 ("```json oops``` \x7b\"a\": 1\x7d").toList =
      JVal.obj [("a", JVal.num 1)] from rfl]
  simp

/-- C9 (amended): `parse_json_from_markdown` returns whatever value the
first successful stage parses — in particular, when the raw text itself is
well-formed, its parsed value is returned verbatim, mapping or not; only
the all-stages-failed fallback is guaranteed to be the empty mapping. -/
theorem claim_C9 (text : String) (v : JVal) (h : json_loads text = some v) :
    parse_json_from_markdown text = v := by
  unfold parse_json_from_markdown
  rw [h]

/-- Witness for C9's amended statement on a scalar input. -/
theorem claim_C9_witness :
    json_loads "true" = some (JVal.bool true) ∧
    parse_json_from_markdown "true" = JVal.bool true :=
  ⟨rfl, claim_C9 "true" (JVal.bool true) rfl⟩

/-- Counterexample to C9 as stated: a raw text that parses as a list is
returned as a list, not a mapping. -/
theorem claim_C9_counterexample :
    parse_json_from_markdown "[1, 2]" = JVal.arr [JVal.num 1, JVal.num 2] ∧
    isMappingB (parse_json_from_markdown "[1, 2]") = false :=
  ⟨rfl, rfl⟩

/-! Claims about the topic aggregator. -/

/-- C5: the study-guide endpoint keeps exactly the question records whose
lowercased topic contains, or is contained in, the lowercased requested
topic; it answers 404 when no analysis rows exist and 404 when the match
is empty; and on the concrete data of the claim, requesting `Subnetting`
keeps the `IP Subnetting` record and drops the `Routing` record. -/
theorem claim_C5 :
    (∀ (topic : String) (rows : List AnalysisRow),
      relatedOf topic rows =
        ((rows.flatMap (fun r => r.questions)).filter
          (topicMatch (toLowerL topic.toList))).map projQ) ∧
    (∀ topic : String, generate_study_guide topic [] =
      Except.error (404, "No exam data found")) ∧
    (∀ (topic : String) (rows : List AnalysisRow), rows ≠ [] →
      relatedOf topic rows = [] →
      generate_study_guide topic rows =
        Except.error (404, "No questions found for topic: " ++ topic)) ∧
    (generate_study_guide "Subnetting"
        [⟨"e1", some "Netz",
          [⟨some "IP Subnetting", some "Q1", some "S1", some "E1"⟩,
           ⟨some "Routing", some "Q2", some "S2", some "E2"⟩]⟩] =
      Except.ok ([⟨"Q1", "S1", "E1"⟩], ["e1"])) ∧
    (projQ ⟨some "IP Subnetting", some "Q1", some "S1", some "E1"⟩ ∈
      relatedOf "Subnetting"
        [⟨"e1", some "Netz",
          [⟨some "IP Subnetting", some "Q1", some "S1", some "E1"⟩,
           ⟨some "Routing", some "Q2", some "S2", some "E2"⟩]⟩]) ∧
    (projQ ⟨some "Routing", some "Q2", some "S2", some "E2"⟩ ∉
      relatedOf "Subnetting"
        [⟨"e1", some "Netz",
          [⟨some "IP Subnetting", some "Q1", some "S1", some "E1"⟩,
           ⟨some "Routing", some "Q2", some "S2", some "E2"⟩]⟩]) := by
  refine ⟨relatedOf_eq, fun topic => rfl, ?_, rfl, by decide, by decide⟩
  intro topic rows h1 h2
  cases rows with
  | nil => exact absurd rfl h1
  | cons r rs =>
    unfold relatedOf at h2
    simp only [String.toList] at h2
    simp [generate_study_guide, h2]

/-- Witness for C5 at a concrete call whose match is empty. -/
theorem claim_C5_witness :
    generate_study_guide "zzz"
        [⟨"e9", none, [⟨some "Routing", some "Q", none, none⟩]⟩] =
      Except.error (404, "No questions found for topic: " ++ "zzz") :=
  claim_C5.2.2.1 "zzz" [⟨"e9", none, [⟨some "Routing", some "Q", none, none⟩]⟩]
    (by decide) (by decide)

/-- C10: a question record whose topic field is absent or empty matches
every requested topic (the empty string is a substring of every string
under the bidirectional containment test), so it is always part of the
aggregated evidence set built from rows that contain it. -/
theorem claim_C10 (topic : String) (rows : List AnalysisRow)
    (row : AnalysisRow) (q : QuestionRow) (hrow : row ∈ rows)
    (hq : q ∈ row.questions) (ht : q.topic = none ∨ q.topic = some "") :
    projQ q ∈ relatedOf topic rows := by
  rw [relatedOf_eq]
  refine List.mem_map.mpr
    ⟨q, List.mem_filter.mpr ⟨List.mem_flatMap.mpr ⟨row, hrow, hq⟩, ?_⟩, rfl⟩
  have hqt : q.topic.getD "" = "" := by rcases ht with h | h <;> simp [h]
  simp [topicMatch, hqt, toLowerL, isSubstrL_nil]

/-- Witness for C10 at a concrete row whose single question has no topic
field. -/
theorem claim_C10_witness :
    projQ ⟨none, some "T", none, none⟩ ∈
      relatedOf "anything" [⟨"w1", none, [⟨none, some "T", none, none⟩]⟩] :=
  claim_C10 "anything" [⟨"w1", none, [⟨none, some "T", none, none⟩]⟩]
    ⟨"w1", none, [⟨none, some "T", none, none⟩]⟩ ⟨none, some "T", none, none⟩
    (by decide) (by decide) (Or.inl rfl)

/-- C7 (amended): wrapping a serialized mapping in a ```json fence with
leading and trailing prose is transparent to `parse_json_from_markdown` —
provided the leading prose and the serialization contain no backtick (so
the fence search locates the real fence) and the wrapped text is not
itself well-formed (so stage 1 does not capture it first).  The
counterexample below shows the claim fails without these provisos. -/
theorem claim_C7 (fields : List (String × JVal)) (s p1 p2 : String)
    (h1 : json_loads s = some (JVal.obj fields))
    (h2 : json_loads_list (pyStripL s.toList) = some (JVal.obj fields))
    (h3 : '`' ∉ p1.toList) (h4 : '`' ∉ s.toList)
    (h5 : json_loads (p1 ++ "```json" ++ s ++ "```" ++ p2) = none) :
    parse_json_from_markdown (p1 ++ "```json" ++ s ++ "```" ++ p2) =
      parse_json_from_markdown s := by
  have hshape : (p1 ++ "```json" ++ s ++ "```" ++ p2).toList =
      (p1.toList ++ openerL) ++ (s.toList ++ (fenceL ++ p2.toList)) := by
    show (((p1.toList ++ openerL) ++ s.toList) ++ fenceL) ++ p2.toList = _
    simp [List.append_assoc]
  have hfind1 : strFindL openerL (p1 ++ "```json" ++ s ++ "```" ++ p2).toList =
      some p1.toList.length := by
    rw [hshape, List.append_assoc]
    exact strFindL_append openerL p1.toList _ '`' ("``json".toList) rfl h3
      (isPrefixOf_append_self _ _)
  have hdrop : ((p1 ++ "```json" ++ s ++ "```" ++ p2).toList).drop
      (p1.toList.length + 7) = s.toList ++ (fenceL ++ p2.toList) := by
    rw [hshape]
    exact List.drop_left' (by simp [openerL])
  have hfind2 : strFindL fenceL (s.toList ++ (fenceL ++ p2.toList)) =
      some s.toList.length :=
    strFindL_append fenceL s.toList _ '`' ("``".toList) rfl h4
      (isPrefixOf_append_self _ _)
  have hfs : fencedSlice (p1 ++ "```json" ++ s ++ "```" ++ p2).toList =
      some (pyStripL s.toList) := by
    unfold fencedSlice
    simp only [hfind1, hdrop, hfind2, List.take_left]
  unfold parse_json_from_markdown
  simp only [h5, h1, hfs, h2, Option.getD_some]

/-- Witness for C7's amended statement at concrete prose and mapping. -/
theorem claim_C7_witness :
    parse_json_from_markdown
        ("Answer: " ++ "```json" ++ "\x7b\"a\": 1\x7d" ++ "```" ++ " thanks") =
      parse_json_from_markdown "\x7b\"a\": 1\x7d" :=
  claim_C7 [("a", JVal.num 1)] "\x7b\"a\": 1\x7d" "Answer: " " thanks"
    rfl rfl (by decide) (by decide) rfl

/-- Counterexample to C7 as stated: with leading prose that itself
contains a fence token, the fence search locks onto the prose, the
mis-sliced substring fails to parse, and the wrapped text recovers to the
empty mapping while the unwrapped serialization recovers to the original
mapping. -/
theorem claim_C7_counterexample :
    parse_json_from_markdown
        ("```json x``` " ++ "```json" ++ "\x7b\"a\": 1\x7d" ++ "```" ++ "") =
      JVal.obj [] ∧
    parse_json_from_markdown "\x7b\"a\": 1\x7d" = JVal.obj [("a", JVal.num 1)] ∧
    parse_json_from_markdown
        ("```json x``` " ++ "```json" ++ "\x7b\"a\": 1\x7d" ++ "```" ++ "") ≠
      parse_json_from_markdown "\x7b\"a\": 1\x7d" := by
  refine ⟨rfl, rfl, ?_⟩
  rw [show parse_json_from_markdown
      ("```json x``` " ++ "```json" ++ "\x7b\"a\": 1\x7d" ++ "```" ++ "") =
      JVal.obj [] from rfl,
    show parse_json_from_markdown "\x7b\"a\": 1\x7d" =
      JVal.obj [("a", JVal.num 1)] from rfl]
  simp

end StudyBuddy
